import Mathlib

/-!
Verification of the promtail tail session (`pkg/promtail/targets/tailer.go`).

The Go file implements a single tail session: construction (`newTailer`),
a channel-multiplexed event loop (`run`), position checkpointing
(`markPosition`), graceful shutdown (`stop`) and checkpoint removal
(`cleanup`).  The embedding below translates that file into pure Lean
definitions: the event loop becomes a step function over an explicit
event stream, the metrics registry and the checkpoint store become
explicit state, and the external collaborators (the checkpoint store
`positions.Positions`, the label middleware `api.AddLabelsMiddleware`,
and the `hpcloud/tail` line source) are modelled from their contracts in
the specification, since their code is not part of this file.
-/

namespace Promtail

/-- A label set, as in `model.LabelSet` (a map from label name to label
value, here an association list). -/
abbrev LabelSet := List (String × String)

/-- `model.LabelSet.Merge`: the result contains every binding of `other`,
plus the bindings of `ls` whose key `other` does not bind (`other` takes
precedence). -/
def LabelSet.merge (ls other : LabelSet) : LabelSet :=
  other ++ ls.filter (fun p => (other.lookup p.1) = none)

/-- Modelled from the spec: the per-file path label name used by the
`targets` package (`filenameLabel`, declared elsewhere in the package):
"every delivered line carries an added label identifying it by
`requestedPath`". -/
def filenameLabel : String := "__filename__"

/-- Modelled from the spec: the checkpoint store
(`positions.Positions`, not under `src/`): a mapping from file path to
byte offset, with `Get(path) -> offset` (zero if unknown), `Put(path,
offset)`, `Remove(path)`, and a configured `SyncPeriod()`. -/
structure Positions where
  entries : String → Option Nat
  syncPeriod : Nat

/-- `Positions.Get`: the stored offset, zero if none was recorded. -/
def Positions.get (ps : Positions) (k : String) : Nat :=
  (ps.entries k).getD 0

/-- `Positions.Put`: store an offset under a path. -/
def Positions.put (ps : Positions) (k : String) (v : Nat) : Positions :=
  { ps with entries := fun q => if q = k then some v else ps.entries q }

/-- `Positions.Remove`: delete the entry of a path. -/
def Positions.remove (ps : Positions) (k : String) : Positions :=
  { ps with entries := fun q => if q = k then none else ps.entries q }

/-- The metrics the tailer touches: counters `readLines` and `readBytes`
and gauge `totalBytes` (all labelled by a path), and the process-wide
gauge `filesActive`. -/
structure Metrics where
  readLines : String → Nat
  readBytes : String → Nat
  totalBytes : String → Option Nat
  filesActive : Int

/-- Increment a labelled counter at one key. -/
def bumpAt (f : String → Nat) (k : String) (n : Nat) : String → Nat :=
  fun q => if q = k then f q + n else f q

/-- Set a labelled gauge at one key. -/
def setAt (f : String → Option Nat) (k : String) (v : Nat) : String → Option Nat :=
  fun q => if q = k then some v else f q

/-- A line from the `hpcloud/tail` line source: text (newline stripped),
timestamp, and an optional read error carried alongside. -/
structure Line where
  text : String
  time : Nat
  err : Option String

/-- The tailer handle built by `newTailer`: requested path, resolved
filename, the `tail.Config` fields (`Follow`, `ReOpen`, seek offset) it
was opened with, and the label set its wrapped handler injects. -/
structure Tailer where
  path : String
  filename : String
  follow : Bool
  reOpen : Bool
  startOffset : Nat
  labels : LabelSet

/-- Result of a stat: the file's size in bytes (`fi.Size()`). -/
structure StatInfo where
  size : Nat
deriving DecidableEq

/-- File-system answers consumed by `newTailer`: the `os.Lstat` result
(whether the path's mode has the symlink bit), the `os.Readlink` result,
and whether `tail.TailFile` fails to open the source. -/
structure FsEnv where
  lstatIsSymlink : Except String Bool
  readlink : Except String String
  openErr : Option String

/-- External effects of construction: how much `filesActive` was
incremented and whether the event loop goroutine was started. -/
structure ConstructEffects where
  filesActiveDelta : Int
  loopStarted : Bool
deriving DecidableEq

/-- No construction effects (the error returns of `newTailer` happen
before `go tailer.run()` and `filesActive.Add(1.)`). -/
def noEffects : ConstructEffects := ⟨0, false⟩

/-- `newTailer`: Lstat the path; resolve it by Readlink when it is a
symlink (setting `reOpen`); open the line source on the resolved
`filename` with `Follow: true` and `Offset: positions.Get(filename)`;
wrap the handler with the `filenameLabel ↦ path` label; start the loop
and bump `filesActive`. Every failure returns the error with no
effects. -/
def newTailer (env : FsEnv) (positions : Positions) (path : String) :
    Except String Tailer × ConstructEffects :=
  match env.lstatIsSymlink with
  | .error e => (.error e, noEffects)
  | .ok isSymlink =>
    let resolved : Except String (String × Bool) :=
      if isSymlink then
        match env.readlink with
        | .error e => .error e
        | .ok f => .ok (f, true)
      else .ok (path, false)
    match resolved with
    | .error e => (.error e, noEffects)
    | .ok (filename, reOpen) =>
      match env.openErr with
      | some e => (.error e, noEffects)
      | none =>
        (.ok { path := path
               filename := filename
               follow := true
               reOpen := reOpen
               startOffset := positions.get filename
               labels := [(filenameLabel, path)] },
         ⟨1, true⟩)

/-- One recorded invocation of the downstream handler (after the
label-adding middleware has merged in the tailer's labels). -/
structure HandlerCall where
  labels : LabelSet
  time : Nat
  text : String
deriving DecidableEq

/-- The state the event loop reads and writes: the metrics registry, the
checkpoint store, the line source's current byte offset (`tail.Tell`
advances by `len(text)+1` per delivered line from the seek offset), the
log of handler invocations, and the shutdown flags (`positionWait.Stop()`
run, `t.done` closed). -/
structure LoopState where
  metrics : Metrics
  positions : Positions
  delivered : Nat
  handled : List HandlerCall
  tickerStopped : Bool
  doneClosed : Bool

/-- `tail.Tell()`, modelled on the source's contract: when it succeeds it
reports the byte offset of the content delivered so far; it may fail. -/
def tell (s : LoopState) (ok : Bool) : Except String Nat :=
  if ok then .ok s.delivered else .error "Tell failed"

/-- `markPosition`: read `t.tail.Tell()`; on failure return the error
(leaving the store untouched); on success `positions.Put(t.filename,
pos)`. -/
def markPosition (t : Tailer) (s : LoopState) (tellOk : Bool) :
    Except String LoopState :=
  match tell s tellOk with
  | .error e => .error e
  | .ok pos =>
    .ok { s with positions := s.positions.put t.filename pos }

/-- One arrival of the loop's `select`: a checkpoint tick (with the
`os.Stat` outcome and whether `Tell` succeeds), a line from
`t.tail.Lines` (with whether the handler call fails), the line channel
closing, or the quit signal. -/
inductive TailEvent where
  | tick (statRes : Except String StatInfo) (tellOk : Bool)
  | line (l : Line) (handlerFails : Bool)
  | closed
  | quit

/-- Whether a `select` arm continues the loop or returns from `run`. -/
inductive StepOut where
  | next (s : LoopState)
  | exit (s : LoopState)

/-- The state carried by either outcome. -/
def StepOut.state : StepOut → LoopState
  | .next s => s
  | .exit s => s

/-- Whether the outcome is an exit. -/
def StepOut.isExit : StepOut → Bool
  | .next _ => false
  | .exit _ => true

/-- One iteration of `run`'s `select`:
* tick: `os.Stat(t.filename)`; on error log and `continue`; else set
  `totalBytes{t.path}` to the size, then `markPosition` (on error log
  and `continue`);
* line: log `line.Err` if any; `readLines{t.path}.Inc()`;
  `readBytes{t.path}.Add(len(line.Text)+1)`; call the wrapped handler
  with an empty label set, the line's time and text (failure only
  logged);
* channel closed or quit: return. -/
def step (t : Tailer) (s : LoopState) (e : TailEvent) : StepOut :=
  match e with
  | .tick statRes tellOk =>
    match statRes with
    | .error _ => .next s
    | .ok fi =>
      let s := { s with metrics :=
        { s.metrics with totalBytes := setAt s.metrics.totalBytes t.path fi.size } }
      match markPosition t s tellOk with
      | .error _ => .next s
      | .ok s' => .next s'
  | .line l _handlerFails =>
    let m := s.metrics
    let m := { m with
      readLines := bumpAt m.readLines t.path 1
      readBytes := bumpAt m.readBytes t.path (l.text.length + 1) }
    .next { s with
      metrics := m
      delivered := s.delivered + l.text.length + 1
      handled := s.handled ++
        [{ labels := LabelSet.merge [] t.labels, time := l.time, text := l.text }] }
  | .closed => .exit s
  | .quit => .exit s

/-- The deferred block of `run`: `positionWait.Stop()` and
`close(t.done)`, executed on every exit path. -/
def runExit (s : LoopState) : LoopState :=
  { s with tickerStopped := true, doneClosed := true }

/-- `run` over an explicit stream of arrivals: process events until one
makes the loop return, then run the deferred block. `none` means the
stream ended with the loop still running. -/
def runLoop (t : Tailer) (s : LoopState) : List TailEvent → Option LoopState
  | [] => none
  | e :: es =>
    match step t s e with
    | .next s' => runLoop t s' es
    | .exit s' => some (runExit s')

/-- The loop state at the moment `go tailer.run()` starts: the given
registry and store, the cursor at the tailer's seek offset, no lines
handled, ticker running, `done` open. -/
def initLoopState (m : Metrics) (ps : Positions) (t : Tailer) : LoopState :=
  { metrics := m
    positions := ps
    delivered := t.startOffset
    handled := []
    tickerStopped := false
    doneClosed := false }

/-- `stop`: final `markPosition` attempt (error only logged), then
`t.tail.Stop()` (its error `stopErr` is the return value), then
`close(t.quit)` — the loop observes it, returns, and runs its deferred
block — then `<-t.done` returns, then `filesActive.Add(-1.)`. -/
def stop (t : Tailer) (s : LoopState) (tellOk : Bool)
    (stopErr : Option String) : LoopState × Option String :=
  let s1 := match markPosition t s tellOk with
    | .error _ => s
    | .ok s' => s'
  let s2 := runExit s1
  let s3 := { s2 with metrics :=
    { s2.metrics with filesActive := s2.metrics.filesActive - 1 } }
  (s3, stopErr)

/-- `cleanup`: `t.positions.Remove(t.filename)`. -/
def cleanup (t : Tailer) (ps : Positions) : Positions :=
  ps.remove t.filename

/-- The checkpoint-store invariant of the spec: the entry keyed by the
resolved path never holds an offset ahead of the delivered content. -/
def CheckpointInv (t : Tailer) (s : LoopState) : Prop :=
  ∀ v, s.positions.entries t.filename = some v → v ≤ s.delivered

/-! Concrete inputs used by the witness theorems. -/

/-- An empty checkpoint store. -/
def psEmpty : Positions := ⟨fun _ => none, 10⟩

/-- A store holding offset 9 for `/var/log/app.log`. -/
def psApp : Positions :=
  ⟨fun q => if q = "/var/log/app.log" then some 9 else none, 10⟩

/-- Environment of a plain (non-symlink) path that opens fine. -/
def envPlain : FsEnv := ⟨.ok false, .ok "/unused", none⟩

/-- Environment of a symlink resolving to `/var/log/app-2024.log`. -/
def envSym : FsEnv := ⟨.ok true, .ok "/var/log/app-2024.log", none⟩

/-- Environment whose `Lstat` fails. -/
def envBad : FsEnv := ⟨.error "stat failed", .ok "/unused", none⟩

/-- An all-zero metrics registry. -/
def mZero : Metrics := ⟨fun _ => 0, fun _ => 0, fun _ => none, 0⟩

/-- The tailer built on a plain path with no recorded offset. -/
def tPlain : Tailer :=
  ⟨"/var/log/app.log", "/var/log/app.log", true, false, 0,
    [(filenameLabel, "/var/log/app.log")]⟩

/-- The loop state `tPlain`'s event loop starts from. -/
def sInit : LoopState := initLoopState mZero psEmpty tPlain

/-- A concrete line. -/
def lineA : Line := ⟨"a", 5, none⟩

/-! Theorems settling the claims.  First, shared helper lemmas. -/

/-- Helper: every successful construction is in follow mode with its
seek offset read from the checkpoint store under the resolved path. -/
theorem newTailer_ok_startOffset (env : FsEnv) (ps : Positions)
    (path : String) (t : Tailer) (eff : ConstructEffects)
    (h : newTailer env ps path = (.ok t, eff)) :
    t.follow = true ∧ t.startOffset = ps.get t.filename := by
  obtain ⟨ls, rl, oe⟩ := env
  rcases ls with e | isSym
  · injection h with h1 h2; injection h1
  · cases isSym
    · rcases oe with _ | e
      · injection h with h1 h2
        injection h1 with h1
        subst h1
        exact ⟨rfl, rfl⟩
      · injection h with h1 h2; injection h1
    · rcases rl with e | target
      · injection h with h1 h2; injection h1
      · rcases oe with _ | e
        · injection h with h1 h2
          injection h1 with h1
          subst h1
          exact ⟨rfl, rfl⟩
        · injection h with h1 h2; injection h1

/-- C1: for every valid path, construction opens the line source in
follow mode seeking to the offset the checkpoint store returns for the
resolved path, and to zero when no offset was recorded. -/
theorem construction_seeks_stored_offset (env : FsEnv) (ps : Positions)
    (path : String) (t : Tailer) (eff : ConstructEffects)
    (h : newTailer env ps path = (.ok t, eff)) :
    t.follow = true ∧ t.startOffset = ps.get t.filename ∧
      (ps.entries t.filename = none → t.startOffset = 0) := by
  obtain ⟨hf, hoff⟩ := newTailer_ok_startOffset env ps path t eff h
  exact ⟨hf, hoff, fun hn => by rw [hoff]; simp [Positions.get, hn]⟩

/-- C1 witness: a concrete plain path with an empty store starts at
offset zero. -/
theorem construction_seeks_stored_offset_witness :
    tPlain.follow = true ∧ tPlain.startOffset = psEmpty.get tPlain.filename ∧
      (psEmpty.entries tPlain.filename = none → tPlain.startOffset = 0) :=
  construction_seeks_stored_offset envPlain psEmpty "/var/log/app.log"
    tPlain ⟨1, true⟩ rfl

/-- C2: every delivered line bumps `lines_read{path}` by exactly 1 and
`bytes_read{path}` by exactly `len(text)+1`, leaves every other label's
counters untouched, and forwards the text and timestamp to the wrapped
handler — whatever the handler outcome and whatever read error the line
carries — without exiting the loop. -/
theorem line_counts_and_forwards (t : Tailer) (s : LoopState) (l : Line)
    (handlerFails : Bool) (q : String) (hq : q ≠ t.path) :
    (step t s (.line l handlerFails)).isExit = false ∧
    (step t s (.line l handlerFails)).state.metrics.readLines t.path =
      s.metrics.readLines t.path + 1 ∧
    (step t s (.line l handlerFails)).state.metrics.readBytes t.path =
      s.metrics.readBytes t.path + (l.text.length + 1) ∧
    (step t s (.line l handlerFails)).state.metrics.readLines q =
      s.metrics.readLines q ∧
    (step t s (.line l handlerFails)).state.metrics.readBytes q =
      s.metrics.readBytes q ∧
    (step t s (.line l handlerFails)).state.handled =
      s.handled ++ [⟨LabelSet.merge [] t.labels, l.time, l.text⟩] := by
  refine ⟨rfl, ?_, ?_, ?_, ?_, rfl⟩ <;>
    simp [step, StepOut.state, bumpAt, hq]

/-- C2 witness: a concrete line `"a"` with a failing handler. -/
theorem line_counts_and_forwards_witness :
    (step tPlain sInit (.line lineA true)).isExit = false ∧
    (step tPlain sInit (.line lineA true)).state.metrics.readLines tPlain.path =
      sInit.metrics.readLines tPlain.path + 1 ∧
    (step tPlain sInit (.line lineA true)).state.metrics.readBytes tPlain.path =
      sInit.metrics.readBytes tPlain.path + (lineA.text.length + 1) ∧
    (step tPlain sInit (.line lineA true)).state.metrics.readLines "/other" =
      sInit.metrics.readLines "/other" ∧
    (step tPlain sInit (.line lineA true)).state.metrics.readBytes "/other" =
      sInit.metrics.readBytes "/other" ∧
    (step tPlain sInit (.line lineA true)).state.handled =
      sInit.handled ++ [⟨LabelSet.merge [] tPlain.labels, lineA.time, lineA.text⟩] :=
  line_counts_and_forwards tPlain sInit lineA true "/other" (by decide)

/-- C3: `stop` returns the underlying source's stop error, leaves the
loop completed (`done` signalled, ticker stopped) and `filesActive`
decremented by one; the final checkpoint attempt writes the current
offset when `Tell` succeeds, and when `Tell` fails the store is left
unchanged yet the shutdown still runs to completion. -/
theorem stop_shutdown_sequence (t : Tailer) (s : LoopState)
    (tellOk : Bool) (stopErr : Option String) :
    (stop t s tellOk stopErr).2 = stopErr ∧
    (stop t s tellOk stopErr).1.doneClosed = true ∧
    (stop t s tellOk stopErr).1.tickerStopped = true ∧
    (stop t s tellOk stopErr).1.metrics.filesActive =
      s.metrics.filesActive - 1 ∧
    (stop t s true stopErr).1.positions =
      s.positions.put t.filename s.delivered ∧
    (stop t s false stopErr).1.positions = s.positions := by
  cases tellOk <;>
    exact ⟨rfl, rfl, rfl, rfl, rfl, rfl⟩

/-- C5: when the requested path is a symlink, construction resolves it
once to the readlink target, sets `reOpen` (followRotation), and the
wrapped handler receives every forwarded line labelled with the
originally requested path, not the resolved target. -/
theorem symlink_reopen_and_label (env : FsEnv) (ps : Positions)
    (path target : String) (t : Tailer) (eff : ConstructEffects)
    (s : LoopState) (l : Line) (handlerFails : Bool)
    (hsym : env.lstatIsSymlink = .ok true)
    (hrl : env.readlink = .ok target)
    (h : newTailer env ps path = (.ok t, eff)) :
    t.reOpen = true ∧ t.filename = target ∧
    t.labels = [(filenameLabel, path)] ∧
    (step t s (.line l handlerFails)).state.handled =
      s.handled ++ [⟨[(filenameLabel, path)], l.time, l.text⟩] := by
  obtain ⟨ls, rl, oe⟩ := env
  obtain rfl : ls = .ok true := hsym
  obtain rfl : rl = .ok target := hrl
  rcases oe with _ | e
  · injection h with h1 h2
    injection h1 with h1
    subst h1
    exact ⟨rfl, rfl, rfl, by simp [step, StepOut.state, LabelSet.merge]⟩
  · injection h with h1 h2; injection h1

/-- C5 witness: a symlinked path resolved to `/var/log/app-2024.log`,
delivering line `"a"`. -/
theorem symlink_reopen_and_label_witness :
    (⟨"/var/log/current", "/var/log/app-2024.log", true, true, 0,
        [(filenameLabel, "/var/log/current")]⟩ : Tailer).reOpen = true ∧
    (⟨"/var/log/current", "/var/log/app-2024.log", true, true, 0,
        [(filenameLabel, "/var/log/current")]⟩ : Tailer).filename =
      "/var/log/app-2024.log" ∧
    (⟨"/var/log/current", "/var/log/app-2024.log", true, true, 0,
        [(filenameLabel, "/var/log/current")]⟩ : Tailer).labels =
      [(filenameLabel, "/var/log/current")] ∧
    (step ⟨"/var/log/current", "/var/log/app-2024.log", true, true, 0,
        [(filenameLabel, "/var/log/current")]⟩ sInit
      (.line lineA false)).state.handled =
      sInit.handled ++ [⟨[(filenameLabel, "/var/log/current")], lineA.time, lineA.text⟩] :=
  symlink_reopen_and_label envSym psEmpty "/var/log/current"
    "/var/log/app-2024.log" _ ⟨1, true⟩ sInit lineA false rfl rfl rfl

/-- C6: `markPosition` reads the source's current offset and stores it
under the resolved path; when the offset read fails it returns the error
and, returning no state, leaves the checkpoint store unchanged. -/
theorem markPosition_put_or_error (t : Tailer) (s : LoopState) :
    markPosition t s true =
      .ok { s with positions := s.positions.put t.filename s.delivered } ∧
    markPosition t s false = .error "Tell failed" :=
  ⟨rfl, rfl⟩

/-- C10: on a checkpoint tick, a failed stat leaves the whole state —
in particular `total_bytes` and the checkpoint store — untouched; a
successful stat with a failed offset read still sets `total_bytes{path}`
to the stat'ed size while the checkpoint store stays unchanged. -/
theorem tick_frame_effects (t : Tailer) (s : LoopState) (e : String)
    (fi : StatInfo) :
    step t s (.tick (.error e) true) = .next s ∧
    step t s (.tick (.error e) false) = .next s ∧
    step t s (.tick (.ok fi) false) =
      .next { s with metrics :=
        { s.metrics with totalBytes := setAt s.metrics.totalBytes t.path fi.size } } :=
  ⟨rfl, rfl, rfl⟩

/-- C7: `cleanup` removes the resolved path's checkpoint entry, so the
store then returns offset zero for it and any fresh session constructed
on a path resolving to the same file starts tailing at byte offset
zero. -/
theorem cleanup_fresh_session_zero (t : Tailer) (ps : Positions)
    (env : FsEnv) (path : String) (t' : Tailer) (eff : ConstructEffects)
    (h : newTailer env (cleanup t ps) path = (.ok t', eff))
    (hsame : t'.filename = t.filename) :
    (cleanup t ps).get t.filename = 0 ∧ t'.startOffset = 0 := by
  have hget : (cleanup t ps).get t.filename = 0 := by
    simp [cleanup, Positions.remove, Positions.get]
  obtain ⟨-, hoff⟩ := newTailer_ok_startOffset env (cleanup t ps) path t' eff h
  exact ⟨hget, by rw [hoff, hsame, hget]⟩

/-- C7 witness: after cleaning the store that held offset 9 for
`/var/log/app.log`, a fresh session on that path starts at zero. -/
theorem cleanup_fresh_session_zero_witness :
    (cleanup tPlain psApp).get tPlain.filename = 0 ∧ tPlain.startOffset = 0 :=
  cleanup_fresh_session_zero tPlain psApp envPlain "/var/log/app.log"
    tPlain ⟨1, true⟩ rfl rfl

/-- C8: when the stat, the symlink resolution, or the source open fails,
construction returns the error with no session effects: the loop is not
started and `filesActive` is not incremented. -/
theorem construction_failure_no_partial_state (env : FsEnv)
    (ps : Positions) (path e : String) (eff : ConstructEffects)
    (h : newTailer env ps path = (.error e, eff)) :
    eff.filesActiveDelta = 0 ∧ eff.loopStarted = false := by
  obtain ⟨ls, rl, oe⟩ := env
  rcases ls with e' | isSym
  · injection h with h1 h2; subst h2; exact ⟨rfl, rfl⟩
  · cases isSym
    · rcases oe with _ | e'
      · injection h with h1 h2; injection h1
      · injection h with h1 h2; subst h2; exact ⟨rfl, rfl⟩
    · rcases rl with e' | target
      · injection h with h1 h2; subst h2; exact ⟨rfl, rfl⟩
      · rcases oe with _ | e'
        · injection h with h1 h2; injection h1
        · injection h with h1 h2; subst h2; exact ⟨rfl, rfl⟩

/-- C8 witness: a failing `Lstat` yields an error and no effects. -/
theorem construction_failure_no_partial_state_witness :
    noEffects.filesActiveDelta = 0 ∧ noEffects.loopStarted = false :=
  construction_failure_no_partial_state envBad psEmpty "/var/log/app.log"
    "stat failed" noEffects rfl

/-- C9: no tick failure, line read error or handler failure exits the
event loop — only the line channel closing or the quit signal do — and
whenever the loop exits it has stopped the ticker and signalled
completion. -/
theorem loop_exits_only_on_close_or_quit :
    (∀ (t : Tailer) (s : LoopState) (statRes : Except String StatInfo)
        (tellOk : Bool), (step t s (.tick statRes tellOk)).isExit = false) ∧
    (∀ (t : Tailer) (s : LoopState) (l : Line) (handlerFails : Bool),
        (step t s (.line l handlerFails)).isExit = false) ∧
    (∀ (t : Tailer) (s : LoopState),
        step t s .closed = .exit s ∧ step t s .quit = .exit s) ∧
    (∀ (t : Tailer) (s : LoopState) (es : List TailEvent) (s' : LoopState),
        runLoop t s es = some s' →
          s'.tickerStopped = true ∧ s'.doneClosed = true) := by
  refine ⟨?_, ?_, ?_, ?_⟩
  · intro t s statRes tellOk
    rcases statRes with e | fi
    · rfl
    · cases tellOk <;> rfl
  · intro t s l hf; rfl
  · intro t s; exact ⟨rfl, rfl⟩
  · intro t s es
    induction es generalizing s with
    | nil => intro s' h; exact absurd h (by simp [runLoop])
    | cons e es ih =>
      intro s' h
      unfold runLoop at h
      rcases hstep : step t s e with s1 | s1 <;> rw [hstep] at h
      · exact ih s1 s' h
      · injection h with h; subst h; exact ⟨rfl, rfl⟩

/-- C9 witness: a quit event exits the loop with ticker stopped and
completion signalled. -/
theorem loop_exits_only_on_close_or_quit_witness :
    (runExit sInit).tickerStopped = true ∧ (runExit sInit).doneClosed = true :=
  loop_exits_only_on_close_or_quit.2.2.2 tPlain sInit [.quit] (runExit sInit) rfl

/-- Helper: `step` preserves the checkpoint-store invariant. -/
theorem checkpointInv_step (t : Tailer) (s : LoopState) (e : TailEvent)
    (hInv : CheckpointInv t s) : CheckpointInv t (step t s e).state := by
  match e with
  | .tick statRes tellOk =>
    rcases statRes with e' | fi
    · exact hInv
    · cases tellOk
      · exact fun v hv => hInv v hv
      · intro v hv
        have hv' : (s.positions.put t.filename s.delivered).entries t.filename
            = some v := hv
        simp [Positions.put] at hv'
        show v ≤ s.delivered
        omega
  | .line l hf =>
    intro v hv
    have hv' : s.positions.entries t.filename = some v := hv
    have hle := hInv v hv'
    show v ≤ s.delivered + (l.text.length + 1)
    omega
  | .closed => exact hInv
  | .quit => exact hInv

/-- Helper: `runLoop` carries the checkpoint-store invariant to its
exit state. -/
theorem checkpointInv_runLoop (t : Tailer) (es : List TailEvent) :
    ∀ s s' : LoopState, CheckpointInv t s → runLoop t s es = some s' →
      CheckpointInv t s' := by
  induction es with
  | nil => intro s s' _ h; exact absurd h (by simp [runLoop])
  | cons e es ih =>
    intro s s' hInv h
    unfold runLoop at h
    rcases hstep : step t s e with s1 | s1 <;> rw [hstep] at h
    · have h1 : CheckpointInv t s1 := by
        have hp := checkpointInv_step t s e hInv
        rwa [hstep] at hp
      exact ih s1 s' h1 h
    · injection h with h; subst h
      have h1 : CheckpointInv t s1 := by
        have hp := checkpointInv_step t s e hInv
        rwa [hstep] at hp
      exact h1

/-- Helper: `stop` preserves the checkpoint-store invariant. -/
theorem checkpointInv_stop (t : Tailer) (s : LoopState) (tellOk : Bool)
    (stopErr : Option String) (hInv : CheckpointInv t s) :
    CheckpointInv t (stop t s tellOk stopErr).1 := by
  cases tellOk
  · exact hInv
  · intro v hv
    have hv' : (s.positions.put t.filename s.delivered).entries t.filename
        = some v := hv
    simp [Positions.put] at hv'
    show v ≤ s.delivered
    omega

/-- C4: the checkpoint entry under the resolved path never runs ahead of
the delivered content — it holds at construction time, is preserved by
every event-loop step and by `stop`, and therefore holds at every point
of a session's lifetime. -/
theorem checkpoint_never_ahead :
    (∀ (env : FsEnv) (ps : Positions) (path : String) (t : Tailer)
        (eff : ConstructEffects) (m : Metrics),
        newTailer env ps path = (.ok t, eff) →
          CheckpointInv t (initLoopState m ps t)) ∧
    (∀ (t : Tailer) (s : LoopState) (e : TailEvent),
        CheckpointInv t s → CheckpointInv t (step t s e).state) ∧
    (∀ (t : Tailer) (s : LoopState) (tellOk : Bool) (stopErr : Option String),
        CheckpointInv t s → CheckpointInv t (stop t s tellOk stopErr).1) ∧
    (∀ (t : Tailer) (s : LoopState) (es : List TailEvent) (s' : LoopState),
        CheckpointInv t s → runLoop t s es = some s' → CheckpointInv t s') := by
  refine ⟨?_, checkpointInv_step, checkpointInv_stop,
    fun t s es s' => checkpointInv_runLoop t es s s'⟩
  intro env ps path t eff m h v hv
  obtain ⟨-, hoff⟩ := newTailer_ok_startOffset env ps path t eff h
  have hv' : ps.entries t.filename = some v := hv
  show v ≤ t.startOffset
  rw [hoff]
  simp [Positions.get, hv']

/-- C4 witness: the invariant is preserved across a concrete successful
checkpoint tick. -/
theorem checkpoint_never_ahead_witness :
    CheckpointInv tPlain (step tPlain sInit (.tick (.ok ⟨9⟩) true)).state :=
  checkpoint_never_ahead.2.1 tPlain sInit (.tick (.ok ⟨9⟩) true)
    (fun v hv => by simp [sInit, initLoopState, psEmpty] at hv)

end Promtail
